import Mathlib

/-!
Verification development for the `simple_verifier` program
(src/prover/simple_verifier.rs) of the opacity-examples repository.

The program is a thin orchestrator over the `tlsn_core` proof library and a
handful of transport libraries (`reqwest`, `serde_json`, `p256`).  The
orchestration itself (function `main` and the helper `notary_pubkey`) is
embedded directly from the source.  Library behaviour that the repository only
calls — deserialization, session verification, substring verification,
transcript redaction — is modelled from the specification, with each such
definition carrying a doc comment saying so.

Machine integers (`u16`, `u64`, byte values) are modelled as `Nat`; none of
the orchestration performs arithmetic that can overflow.  Fallible calls are
modelled with `Except`/`Option`; a Rust `unwrap` on a failing value is
modelled as an explicit `panic`-style outcome constructor, never as a normal
return.
-/

namespace SimpleVerifier

/-- JSON values, the wire format used both by the notary `/info` endpoint and
by the serialized proof artifact (`serde_json`).  Numeric fields of the
artifact are unsigned, so numbers are modelled as `Nat`. -/
inductive Json where
  | null : Json
  | str (s : String) : Json
  | num (n : Nat) : Json
  | arr (xs : List Json) : Json
  | obj (fields : List (String × Json)) : Json

/-- Look up the first binding of key `k` in an association list. -/
def lookupField : List (String × Json) → String → Option Json
  | [], _ => none
  | (k, v) :: rest, key => if k = key then some v else lookupField rest key

/-- Field access on a JSON value: `none` unless the value is an object
containing the key. -/
def Json.get? : Json → String → Option Json
  | Json.obj fields, key => lookupField fields key
  | _, _ => none

/-- String content of a JSON value, when it is a string. -/
def Json.asStr? : Json → Option String
  | Json.str s => some s
  | _ => none

/-- Numeric content of a JSON value, when it is a number. -/
def Json.asNat? : Json → Option Nat
  | Json.num n => some n
  | _ => none

/-- Array content of a JSON value, when it is an array. -/
def Json.asArr? : Json → Option (List Json)
  | Json.arr xs => some xs
  | _ => none

/-- String-typed field of a JSON object. -/
def Json.getStr? (j : Json) (key : String) : Option String :=
  (j.get? key).bind Json.asStr?

/-- The `/info` response of the notary server, embedded from `InfoResponse`
in src/prover/simple_verifier.rs (serde with camelCase field renaming):
`version`, `publicKey`, `gitCommitHash`, `gitCommitTimestamp`, all strings. -/
structure InfoResponse where
  version : String
  public_key : String
  git_commit_hash : String
  git_commit_timestamp : String
deriving Repr, DecidableEq

/-- Modelled from the spec: serde deserialization of the `/info` JSON body
into `InfoResponse` (the serde implementation is library code outside the
repository).  All four camelCase string fields must be present with string
values; unknown fields are ignored. -/
def decodeInfoResponse (j : Json) : Option InfoResponse :=
  match j.getStr? "version", j.getStr? "publicKey",
        j.getStr? "gitCommitHash", j.getStr? "gitCommitTimestamp" with
  | some v, some pk, some gh, some gt =>
      some { version := v, public_key := pk,
             git_commit_hash := gh, git_commit_timestamp := gt }
  | _, _, _, _ => none

/-- An elliptic-curve (P-256) public key, reduced to an abstract identifier.
Only its use as a verification key matters to the orchestration. -/
structure PublicKey where
  id : Nat
deriving Repr, DecidableEq

/-- Character list of the PEM header line for a public key. -/
def pemHeader : List Char := "-----BEGIN PUBLIC KEY-----".data

/-- Character list of the PEM footer line for a public key. -/
def pemFooter : List Char := "-----END PUBLIC KEY-----".data

/-- Modelled from the spec: PEM decoding of an elliptic-curve public key
(`p256::PublicKey::from_public_key_pem`, library code outside the
repository).  A string decodes exactly when it is wrapped in the standard
public-key PEM header and footer; the decoded key is a deterministic digest
of the body. -/
def pemDecodeP256 (s : String) : Option PublicKey :=
  let cs := s.data
  if pemHeader.isPrefixOf cs ∧ pemFooter.isSuffixOf cs ∧
     pemHeader.length + pemFooter.length ≤ cs.length then
    some ⟨cs.foldl (fun a c => a * 31 + c.toNat) 7⟩
  else
    none

/-- Transport-level failures of the HTTPS call to the notary server
(`reqwest` errors): the connection timed out, the host was unreachable, or
the response body was not readable as JSON text. -/
inductive TransportError where
  | timeout : TransportError
  | unreachable : TransportError
  | badBody : TransportError
deriving Repr, DecidableEq

/-- The network, as the program observes it: a map from request URL to either
a transport failure or a JSON response body. -/
def Network : Type := String → Except TransportError Json

/-- Errors that `notary_pubkey` can return through its `Result` channel:
the `?` operator propagates the transport error of `send()` and the
deserialization error of `response.json()`. -/
inductive ResolveError where
  | transport (e : TransportError) : ResolveError
  | jsonDecode : ResolveError
deriving Repr, DecidableEq

/-- Possible outcomes of `notary_pubkey`: a key, an `Err` value returned to
the caller, or a panic (the `unwrap` on the PEM decode). -/
inductive ResolveOutcome where
  | ok (k : PublicKey) : ResolveOutcome
  | err (e : ResolveError) : ResolveOutcome
  | panicked : ResolveOutcome
deriving Repr, DecidableEq

/-- URL of the notary discovery endpoint, embedded from the `format!` call in
`notary_pubkey`. -/
def infoUrl (host : String) (port : Nat) : String :=
  "https://" ++ host ++ ":" ++ toString port ++ "/info"

/-- Embedding of `notary_pubkey` (src/prover/simple_verifier.rs lines
97-113): issue a GET to `https://host:port/info`, propagate transport and
JSON-decoding failures through the `Result` channel, and `unwrap` the PEM
decode of the `publicKey` field (a failing decode panics).  The function also
returns the URL it requested. -/
def notary_pubkey (net : Network) (notary_host : String) (notary_port : Nat) :
    ResolveOutcome × String :=
  let url := infoUrl notary_host notary_port
  match net url with
  | Except.error e => (ResolveOutcome.err (ResolveError.transport e), url)
  | Except.ok body =>
      match decodeInfoResponse body with
      | none => (ResolveOutcome.err ResolveError.jsonDecode, url)
      | some info =>
          match pemDecodeP256 info.public_key with
          | none => (ResolveOutcome.panicked, url)
          | some k => (ResolveOutcome.ok k, url)

/-- Modelled from the spec: the `SessionHeader` of `tlsn_core` (library code
outside the repository) — a per-position vector commitment to each direction
of the transcript, a Unix timestamp in seconds (`time`), and a nonce binding
the commitment.  The committed total length of each direction is the length
of the commitment vector itself, so it is bound by the commitment rather than
asserted separately. -/
structure SessionHeader where
  time : Nat
  nonce : Nat
  commitSent : List Nat
  commitRecv : List Nat

/-- Committed total length of the sent direction. -/
def SessionHeader.sentLen (h : SessionHeader) : Nat := h.commitSent.length

/-- Committed total length of the received direction. -/
def SessionHeader.recvLen (h : SessionHeader) : Nat := h.commitRecv.length

/-- Modelled from the spec: canonical serialization of the session header,
the byte string the notary signs. -/
def serializeHeader (h : SessionHeader) : List Nat :=
  h.time :: h.nonce :: h.commitSent.length :: h.commitRecv.length ::
    (h.commitSent ++ h.commitRecv)

/-- A detached signature over the serialized session header. -/
structure SessionSignature where
  val : Nat

/-- Modelled from the spec: the deterministic check that a signature value
verifies over a byte string under a public key (constant-time P-256
verification in the library; modelled as a keyed digest comparison). -/
def sigDigest (keyId : Nat) (msg : List Nat) : Nat :=
  msg.foldl (fun a b => (a * 31 + b) % 1000003) (keyId + 11)

/-- Signature verification over the canonical header serialization. -/
def verifySignature (k : PublicKey) (h : SessionHeader) (s : SessionSignature) : Bool :=
  s.val = sigDigest k.id (serializeHeader h)

/-- Modelled from the spec: one X.509 certificate, reduced to the data the
default verifier consults — the DNS names it is valid for, its validity
window in Unix seconds, and subject/issuer identifiers for path building. -/
structure Cert where
  names : List String
  notBefore : Nat
  notAfter : Nat
  subjectId : Nat
  issuerId : Nat

/-- Modelled from the spec: the identifiers of the trusted root certificates
of the `webpki-roots` bundle consulted by the default certificate verifier. -/
def webpkiRootIds : List Nat := [101, 202]

/-- Split a character list at the dots, giving DNS labels. -/
def dnsLabels : List Char → List (List Char)
  | [] => [[]]
  | c :: rest =>
      let ls := dnsLabels rest
      if c = '.' then [] :: ls
      else match ls with
        | [] => [[c]]
        | l :: ls2 => (c :: l) :: ls2

/-- Modelled from the spec: standard hostname matching with wildcard
handling — a pattern `*.rest` matches any single nonempty leftmost label
followed by exactly `rest`; otherwise matching is literal. -/
def hostnameMatches (pattern name : String) : Bool :=
  match dnsLabels pattern.data, dnsLabels name.data with
  | pl :: prest, nl :: nrest =>
      if pl = ['*'] then decide (nl ≠ []) && decide (prest = nrest)
      else decide (pl :: prest = nl :: nrest)
  | _, _ => false

/-- Time validity of a single certificate at a given Unix time. -/
def certTimeValid (t : Nat) (c : Cert) : Bool :=
  decide (c.notBefore ≤ t) && decide (t ≤ c.notAfter)

/-- Chaining: each certificate is issued by the next one in the list. -/
def chainLinked : List Cert → Bool
  | [] => true
  | [_] => true
  | c1 :: c2 :: rest => decide (c1.issuerId = c2.subjectId) && chainLinked (c2 :: rest)

/-- Modelled from the spec: certificate-path validation of the default
verifier — the chain is nonempty, consecutively linked, anchored at a
`webpki-roots` trust anchor, and every certificate is time-valid at the
attested session time. -/
def chainValid (chain : List Cert) (t : Nat) : Bool :=
  match chain with
  | [] => false
  | c :: rest =>
      chainLinked (c :: rest) &&
      (((c :: rest).getLast (by simp)).issuerId ∈ webpkiRootIds : Bool) &&
      (c :: rest).all (certTimeValid t)

/-- Modelled from the spec: the leaf certificate is valid for the asserted
server name under standard hostname matching rules. -/
def leafMatchesHostname (chain : List Cert) (name : String) : Bool :=
  match chain with
  | [] => false
  | leaf :: _ => leaf.names.any (fun p => hostnameMatches p name)

/-- Modelled from the spec: the `SessionInfo` of `tlsn_core` — the asserted
server name and the certificate chain presented in the TLS handshake. -/
structure SessionInfo where
  server_name : String
  certChain : List Cert

/-- Modelled from the spec: the `SessionProof` of `tlsn_core` — header,
detached notary signature, and session metadata. -/
structure SessionProof where
  header : SessionHeader
  signature : SessionSignature
  session_info : SessionInfo

/-- Failures of session verification, in the order the library checks them:
signature first, then certificate path, then hostname. -/
inductive SessionError where
  | invalidSignature : SessionError
  | invalidCertificateChain : SessionError
  | hostnameMismatch : SessionError
deriving Repr, DecidableEq

/-- Modelled from the spec: `SessionProof::verify_with_default_cert_verifier`
(library code outside the repository) — verify the notary signature over the
canonical header serialization, then validate the certificate chain against
the `webpki-roots` anchors at the attested time, then match the leaf
certificate against the asserted server name. -/
def verify_with_default_cert_verifier (s : SessionProof) (k : PublicKey) :
    Except SessionError Unit :=
  if verifySignature k s.header s.signature then
    if chainValid s.session_info.certChain s.header.time then
      if leafMatchesHostname s.session_info.certChain s.session_info.server_name then
        Except.ok ()
      else Except.error SessionError.hostnameMismatch
    else Except.error SessionError.invalidCertificateChain
  else Except.error SessionError.invalidSignature

/-- Modelled from the spec: one disclosed transcript range with its
commitment-opening data — start offset, disclosed bytes, and one blinding
value per byte. -/
structure RangeOpening where
  start : Nat
  bytes : List Nat
  blinds : List Nat

/-- Modelled from the spec: the per-position committed value determined by a
disclosed byte and its blinding (the scheme-independent deterministic map
from (byte, opening) to a commitment slot). -/
def commitSlot (byte blind : Nat) : Nat := byte + 256 * blind

/-- End offset (one past the last position) of a disclosed range. -/
def RangeOpening.stop (r : RangeOpening) : Nat := r.start + r.bytes.length

/-- Modelled from the spec: the `SubstringsProof` of `tlsn_core` — disclosed
ranges with openings for each direction. -/
structure SubstringsProof where
  sentOpenings : List RangeOpening
  recvOpenings : List RangeOpening

/-- Failures of substring verification. -/
inductive SubstringsError where
  | rangeOutOfBounds : SubstringsError
  | overlappingRanges : SubstringsError
  | commitmentMismatch : SubstringsError
deriving Repr, DecidableEq

/-- Range bounds check against the committed total length of a direction. -/
def rangesInBounds (rs : List RangeOpening) (total : Nat) : Bool :=
  rs.all (fun r => decide (r.stop ≤ total))

/-- Disjointness of two ranges. -/
def rangesDisjoint (r1 r2 : RangeOpening) : Bool :=
  decide (r1.stop ≤ r2.start) || decide (r2.stop ≤ r1.start)

/-- Pairwise disjointness of a list of ranges. -/
def rangesPairwiseDisjoint : List RangeOpening → Bool
  | [] => true
  | r :: rest => rest.all (rangesDisjoint r) && rangesPairwiseDisjoint rest

/-- Opening check of one range against the commitment vector of its
direction: the blinding list has one entry per byte and every committed slot
covered by the range matches `commitSlot` of the disclosed byte and its
blinding. -/
def openingMatches (commit : List Nat) (r : RangeOpening) : Bool :=
  decide (r.blinds.length = r.bytes.length) &&
  (List.range r.bytes.length).all fun i =>
    decide ((commit.drop (r.start + i)).headD 0 =
      commitSlot (r.bytes.getD i 0) (r.blinds.getD i 0))

/-- Validation of one direction: bounds, disjointness, then openings. -/
def verifyDirection (commit : List Nat) (rs : List RangeOpening) :
    Except SubstringsError Unit :=
  if rangesInBounds rs commit.length then
    if rangesPairwiseDisjoint rs then
      if rs.all (openingMatches commit) then Except.ok ()
      else Except.error SubstringsError.commitmentMismatch
    else Except.error SubstringsError.overlappingRanges
  else Except.error SubstringsError.rangeOutOfBounds

/-- Modelled from the spec: the `RedactedTranscript` of `tlsn_core` — the
committed total length, the validated disclosed ranges, and the byte value
currently standing in redacted positions (the library default is 0 until
`set_redacted` replaces it). -/
structure RedactedTranscript where
  total : Nat
  ranges : List RangeOpening
  fill : Nat

/-- Embedding of `RedactedTranscript::set_redacted`: replace the byte shown
at every undisclosed position. -/
def RedactedTranscript.set_redacted (t : RedactedTranscript) (b : Nat) :
    RedactedTranscript :=
  { t with fill := b }

/-- Disclosed byte at a position, when some range covers it. -/
def discloseAt : List RangeOpening → Nat → Option Nat
  | [], _ => none
  | r :: rest, pos =>
      if r.start ≤ pos ∧ pos < r.stop then some (r.bytes.getD (pos - r.start) 0)
      else discloseAt rest pos

/-- Byte shown at one position of a redacted transcript: the disclosed byte
when a validated range covers the position, the fill byte otherwise. -/
def RedactedTranscript.byteAt (t : RedactedTranscript) (pos : Nat) : Nat :=
  match discloseAt t.ranges pos with
  | some b => b
  | none => t.fill

/-- Embedding of `RedactedTranscript::data`: the materialized byte sequence,
one byte per committed position. -/
def RedactedTranscript.data (t : RedactedTranscript) : List Nat :=
  (List.range t.total).map t.byteAt

/-- Modelled from the spec: `SubstringsProof::verify` (library code outside
the repository) — validate both directions against the header commitments
(bounds, disjointness, openings) and return the two redacted transcripts of
the committed lengths, with undisclosed positions still holding the default
fill byte 0. -/
def SubstringsProof.verify (p : SubstringsProof) (h : SessionHeader) :
    Except SubstringsError (RedactedTranscript × RedactedTranscript) :=
  match verifyDirection h.commitSent p.sentOpenings with
  | Except.error e => Except.error e
  | Except.ok () =>
      match verifyDirection h.commitRecv p.recvOpenings with
      | Except.error e => Except.error e
      | Except.ok () =>
          Except.ok ({ total := h.sentLen, ranges := p.sentOpenings, fill := 0 },
                     { total := h.recvLen, ranges := p.recvOpenings, fill := 0 })

/-- Modelled from the spec: the top-level `TlsProof` artifact — session proof
plus substrings proof. -/
structure TlsProof where
  session : SessionProof
  substrings : SubstringsProof

/-- Decoding of a JSON array of numbers. -/
def decodeNatList (j : Json) : Option (List Nat) :=
  j.asArr?.bind (List.mapM Json.asNat?)

/-- Modelled from the spec: serde deserialization of a session header from
the stable artifact format (unknown fields ignored everywhere). -/
def decodeHeader (j : Json) : Option SessionHeader :=
  match (j.get? "time").bind Json.asNat?, (j.get? "nonce").bind Json.asNat?,
        (j.get? "commitSent").bind decodeNatList,
        (j.get? "commitRecv").bind decodeNatList with
  | some t, some n, some cs, some cr =>
      some { time := t, nonce := n, commitSent := cs, commitRecv := cr }
  | _, _, _, _ => none

/-- Decoding of one certificate of the handshake chain. -/
def decodeCert (j : Json) : Option Cert :=
  match (j.get? "names").bind Json.asArr?,
        (j.get? "notBefore").bind Json.asNat?, (j.get? "notAfter").bind Json.asNat?,
        (j.get? "subjectId").bind Json.asNat?, (j.get? "issuerId").bind Json.asNat? with
  | some ns, some nb, some na, some si, some ii =>
      (ns.mapM Json.asStr?).map fun names =>
        { names := names, notBefore := nb, notAfter := na,
          subjectId := si, issuerId := ii }
  | _, _, _, _, _ => none

/-- Decoding of the session metadata. -/
def decodeSessionInfo (j : Json) : Option SessionInfo :=
  match j.getStr? "serverName", (j.get? "certChain").bind Json.asArr? with
  | some sn, some cs =>
      (cs.mapM decodeCert).map fun chain => { server_name := sn, certChain := chain }
  | _, _ => none

/-- Decoding of the session proof: header, signature, session info. -/
def decodeSessionProof (j : Json) : Option SessionProof :=
  match (j.get? "header").bind decodeHeader,
        (j.get? "signature").bind Json.asNat?,
        (j.get? "sessionInfo").bind decodeSessionInfo with
  | some h, some s, some si =>
      some { header := h, signature := ⟨s⟩, session_info := si }
  | _, _, _ => none

/-- Decoding of one disclosed range with its opening. -/
def decodeRange (j : Json) : Option RangeOpening :=
  match (j.get? "start").bind Json.asNat?,
        (j.get? "bytes").bind decodeNatList, (j.get? "blinds").bind decodeNatList with
  | some st, some bs, some bl => some { start := st, bytes := bs, blinds := bl }
  | _, _, _ => none

/-- Decoding of the substrings proof: disclosed ranges per direction. -/
def decodeSubstringsProof (j : Json) : Option SubstringsProof :=
  match (j.get? "sent").bind Json.asArr?, (j.get? "recv").bind Json.asArr? with
  | some ss, some rs =>
      match ss.mapM decodeRange, rs.mapM decodeRange with
      | some sent, some recv => some { sentOpenings := sent, recvOpenings := recv }
      | _, _ => none
  | _, _ => none

/-- Modelled from the spec: serde deserialization of the `TlsProof` artifact
(`serde_json::from_str`, library code outside the repository) — two
top-level fields, `session` and `substrings`, with fixed nesting.  Textual
JSON parsing is abstracted: the artifact is given as a `Json` value and a
malformed artifact is one that fails this structural decoding. -/
def decodeTlsProof (j : Json) : Option TlsProof :=
  match (j.get? "session").bind decodeSessionProof,
        (j.get? "substrings").bind decodeSubstringsProof with
  | some s, some p => some { session := s, substrings := p }
  | _, _ => none

/-- Continuation-byte test of UTF-8 validation. -/
def isUtf8Cont (b : Nat) : Bool := decide (128 ≤ b) && decide (b ≤ 191)

/-- Modelled from the spec: exact UTF-8 validity of a byte sequence, the
check performed by `String::from_utf8` (Rust standard library) — ASCII,
two-, three- and four-byte sequences with the standard continuation,
overlong, surrogate and upper-bound restrictions. -/
def utf8Valid : List Nat → Bool
  | [] => true
  | b :: rest =>
      if b ≤ 127 then utf8Valid rest
      else if 194 ≤ b ∧ b ≤ 223 then
        match rest with
        | b1 :: rest1 => isUtf8Cont b1 && utf8Valid rest1
        | [] => false
      else if b = 224 then
        match rest with
        | b1 :: b2 :: rest2 =>
            decide (160 ≤ b1) && decide (b1 ≤ 191) && isUtf8Cont b2 && utf8Valid rest2
        | _ => false
      else if (225 ≤ b ∧ b ≤ 236) ∨ b = 238 ∨ b = 239 then
        match rest with
        | b1 :: b2 :: rest2 => isUtf8Cont b1 && isUtf8Cont b2 && utf8Valid rest2
        | _ => false
      else if b = 237 then
        match rest with
        | b1 :: b2 :: rest2 =>
            decide (128 ≤ b1) && decide (b1 ≤ 159) && isUtf8Cont b2 && utf8Valid rest2
        | _ => false
      else if b = 240 then
        match rest with
        | b1 :: b2 :: b3 :: rest3 =>
            decide (144 ≤ b1) && decide (b1 ≤ 191) && isUtf8Cont b2 && isUtf8Cont b3 &&
              utf8Valid rest3
        | _ => false
      else if 241 ≤ b ∧ b ≤ 243 then
        match rest with
        | b1 :: b2 :: b3 :: rest3 =>
            isUtf8Cont b1 && isUtf8Cont b2 && isUtf8Cont b3 && utf8Valid rest3
        | _ => false
      else if b = 244 then
        match rest with
        | b1 :: b2 :: b3 :: rest3 =>
            decide (128 ≤ b1) && decide (b1 ≤ 143) && isUtf8Cont b2 && isUtf8Cont b3 &&
              utf8Valid rest3
        | _ => false
      else false

/-- Environment variables, as an environment-style configuration map. -/
def EnvMap : Type := String → Option String

/-- Failure of `std::fs::read_to_string`. -/
inductive FileError where
  | unreadable : FileError
deriving Repr, DecidableEq

/-- The world the program runs against: the process environment, the network
and the filesystem.  File contents are the parsed JSON of the stored text
(textual parsing abstracted as in `decodeTlsProof`). -/
structure World where
  env : EnvMap
  net : Network
  files : String → Except FileError Json

/-- Numeric value of a decimal digit character. -/
def charDigit? (c : Char) : Option Nat :=
  if 48 ≤ c.toNat ∧ c.toNat ≤ 57 then some (c.toNat - 48) else none

/-- Accumulating decimal parse of a character list. -/
def natFromChars : List Char → Nat → Option Nat
  | [], acc => some acc
  | c :: rest, acc =>
      match charDigit? c with
      | some d => natFromChars rest (acc * 10 + d)
      | none => none

/-- Decimal parse of a string, `none` when empty or not all digits. -/
def parseNatStr (s : String) : Option Nat :=
  if s.data.isEmpty then none else natFromChars s.data 0

/-- Modelled from the spec: `opacity::read_env_vars` (library code outside
the repository) — the notary host and port read as environment-style
configuration, from the `NOTARY_HOST` and `NOTARY_PORT` variables. -/
def read_env_vars (env : EnvMap) : String × Nat :=
  ((env "NOTARY_HOST").getD "localhost",
   ((env "NOTARY_PORT").bind parseNatStr).getD 7047)

/-- Pipeline steps of `main`, in source order.  `readHeaderTime` is the
explicit `header.time()` read on line 67; `readServerName` is the read of
`session_info.server_name` in the first result `println!`. -/
inductive VStep where
  | resolveKey : VStep
  | readProofFile : VStep
  | deserializeProof : VStep
  | verifySessionSignature : VStep
  | verifyServerIdentity : VStep
  | readHeaderTime : VStep
  | openCommitments : VStep
  | redactTranscripts : VStep
  | readServerName : VStep
  | printOutput : VStep
deriving Repr, DecidableEq

/-- The fixed full step order of a completely successful run. -/
def stepOrder : List VStep :=
  [VStep.resolveKey, VStep.readProofFile, VStep.deserializeProof,
   VStep.verifySessionSignature, VStep.verifyServerIdentity, VStep.readHeaderTime,
   VStep.openCommitments, VStep.redactTranscripts, VStep.readServerName,
   VStep.printOutput]

/-- Abort causes of `main`: every failing `unwrap` panics with the error of
the step that failed. -/
inductive VError where
  | keyResolutionFailed (e : ResolveError) : VError
  | keyResolutionPanic : VError
  | proofFileUnreadable : VError
  | malformedProof : VError
  | sessionVerification (e : SessionError) : VError
  | substringsVerification (e : SubstringsError) : VError
  | nonUtf8Output : VError
deriving Repr, DecidableEq

/-- The step at which a given abort cause arises. -/
def stepOfError : VError → VStep
  | VError.keyResolutionFailed _ => VStep.resolveKey
  | VError.keyResolutionPanic => VStep.resolveKey
  | VError.proofFileUnreadable => VStep.readProofFile
  | VError.malformedProof => VStep.deserializeProof
  | VError.sessionVerification SessionError.invalidSignature =>
      VStep.verifySessionSignature
  | VError.sessionVerification _ => VStep.verifyServerIdentity
  | VError.substringsVerification _ => VStep.openCommitments
  | VError.nonUtf8Output => VStep.readServerName

/-- The Unix epoch (`chrono::DateTime::UNIX_EPOCH`), as seconds. -/
def unixEpochSeconds : Int := 0

/-- Verified data presented on success: the server name, the attested time
(seconds since the Unix epoch) and both redacted transcripts. -/
structure Output where
  server_name : String
  time : Int
  sentData : List Nat
  recvData : List Nat
deriving Repr, DecidableEq

/-- Final state of a run: normal completion with its output, or a panic. -/
inductive RunResult where
  | success (o : Output) : RunResult
  | panicked (e : VError) : RunResult
deriving Repr, DecidableEq

/-- Observable effects of a run: the completed steps in order, the file
paths read, the file writes performed, and the final state. -/
structure RunOut where
  trace : List VStep
  reads : List String
  writes : List (String × Json)
  result : RunResult

/-- The hard-coded proof artifact path of `main`. -/
def proofFilePath : String := "simple_proof.json"

/-- The sentinel byte (ASCII code of the letter X) passed to `set_redacted`. -/
def sentinelByte : Nat := 88

/-- Embedding of the body of `main` (src/prover/simple_verifier.rs lines
31-93), abstracted over the already-read configuration: resolve the notary
key, read and deserialize the proof artifact, verify the session proof
against the notary key (signature, then identity), read the attested time,
verify the substrings proof against the header, redact both transcripts with
the sentinel, then print the verified data — every fallible step unwrapped,
so the first failure aborts the run with the error of that step. -/
def runMainCore (hostPort : String × Nat) (net : Network)
    (files : String → Except FileError Json) : RunOut :=
  match (notary_pubkey net hostPort.1 hostPort.2).1 with
  | ResolveOutcome.err e =>
      ⟨stepOrder.take 1, [], [],
       RunResult.panicked (VError.keyResolutionFailed e)⟩
  | ResolveOutcome.panicked =>
      ⟨stepOrder.take 1, [], [], RunResult.panicked VError.keyResolutionPanic⟩
  | ResolveOutcome.ok notary_public_key =>
      match files proofFilePath with
      | Except.error _ =>
          ⟨stepOrder.take 2, [proofFilePath], [],
           RunResult.panicked VError.proofFileUnreadable⟩
      | Except.ok content =>
          match decodeTlsProof content with
          | none =>
              ⟨stepOrder.take 3, [proofFilePath], [],
               RunResult.panicked VError.malformedProof⟩
          | some proof =>
              match verify_with_default_cert_verifier proof.session notary_public_key with
              | Except.error SessionError.invalidSignature =>
                  ⟨stepOrder.take 4, [proofFilePath], [],
                   RunResult.panicked
                     (VError.sessionVerification SessionError.invalidSignature)⟩
              | Except.error e =>
                  ⟨stepOrder.take 5, [proofFilePath], [],
                   RunResult.panicked (VError.sessionVerification e)⟩
              | Except.ok () =>
                  match proof.substrings.verify proof.session.header with
                  | Except.error e =>
                      ⟨stepOrder.take 7, [proofFilePath], [],
                       RunResult.panicked (VError.substringsVerification e)⟩
                  | Except.ok (sent, recv) =>
                      let sentRed := sent.set_redacted sentinelByte
                      let recvRed := recv.set_redacted sentinelByte
                      if utf8Valid sentRed.data && utf8Valid recvRed.data then
                        ⟨stepOrder, [proofFilePath], [],
                         RunResult.success
                           { server_name := proof.session.session_info.server_name,
                             time := unixEpochSeconds + (proof.session.header.time : Int),
                             sentData := sentRed.data,
                             recvData := recvRed.data }⟩
                      else
                        ⟨stepOrder.take 9, [proofFilePath], [],
                         RunResult.panicked VError.nonUtf8Output⟩

/-- Embedding of `main`: read the notary host and port from the environment,
then run the verification pipeline against the network and the filesystem. -/
def runMain (w : World) : RunOut :=
  runMainCore (read_env_vars w.env) w.net w.files

/-- Overwrite one file of a filesystem map. -/
def writeFile (fs : String → Except FileError Json) (p : String) (j : Json) :
    String → Except FileError Json :=
  fun q => if q = p then Except.ok j else fs q

/-- Apply a run's file writes to the world. -/
def applyWrites (w : World) : List (String × Json) → World
  | [] => w
  | (p, j) :: rest => applyWrites { w with files := writeFile w.files p j } rest

/-- Concrete witness value: a PEM-wrapped public key accepted by the
modelled decoder. -/
def goodPem : String := "-----BEGIN PUBLIC KEY-----AB-----END PUBLIC KEY-----"

/-- Concrete witness value: the key decoded from `goodPem`. -/
def goodKey : PublicKey := ⟨goodPem.data.foldl (fun a c => a * 31 + c.toNat) 7⟩

/-- Concrete witness value: a well-formed `/info` response body. -/
def infoJson : Json :=
  Json.obj [("version", Json.str "0.1"), ("publicKey", Json.str goodPem),
            ("gitCommitHash", Json.str "abc"), ("gitCommitTimestamp", Json.str "t")]

/-- Concrete witness value: a network on which the notary at host `n`,
port 1 answers with `infoJson` and every other request fails. -/
def goodNet : Network :=
  fun u => if u = infoUrl "n" 1 then Except.ok infoJson
           else Except.error TransportError.unreachable

/-- Concrete witness value: a session header committing to sent bytes
`GET` (fully disclosed below) and two undisclosed received bytes. -/
def goodHeader : SessionHeader := ⟨1000, 5, [71, 69, 84], [104, 105]⟩

/-- Concrete witness value: a leaf certificate for `example.com` anchored at
a trusted root. -/
def goodCert : Cert := ⟨["example.com"], 0, 2000, 3, 101⟩

/-- Concrete witness value: session metadata naming `example.com`. -/
def goodInfo : SessionInfo := ⟨"example.com", [goodCert]⟩

/-- Concrete witness value: a notary signature valid for `goodHeader` under
`goodKey`. -/
def goodSig : SessionSignature := ⟨sigDigest goodKey.id (serializeHeader goodHeader)⟩

/-- Concrete witness value: the assembled session proof. -/
def goodSession : SessionProof := ⟨goodHeader, goodSig, goodInfo⟩

/-- Concrete witness value: a substrings proof disclosing all three sent
bytes and no received bytes. -/
def goodSubstrings : SubstringsProof := ⟨[⟨0, [71, 69, 84], [0, 0, 0]⟩], []⟩

/-- Concrete witness value: the assembled top-level proof. -/
def goodProof : TlsProof := ⟨goodSession, goodSubstrings⟩

/-- Concrete witness value: JSON encoding of `goodCert`. -/
def certJson : Json :=
  Json.obj [("names", Json.arr [Json.str "example.com"]), ("notBefore", Json.num 0),
            ("notAfter", Json.num 2000), ("subjectId", Json.num 3),
            ("issuerId", Json.num 101)]

/-- Concrete witness value: JSON encoding of `goodHeader`. -/
def headerJson : Json :=
  Json.obj [("time", Json.num 1000), ("nonce", Json.num 5),
            ("commitSent", Json.arr [Json.num 71, Json.num 69, Json.num 84]),
            ("commitRecv", Json.arr [Json.num 104, Json.num 105])]

/-- Concrete witness value: JSON encoding of `goodSession`. -/
def sessionJson : Json :=
  Json.obj [("header", headerJson), ("signature", Json.num goodSig.val),
            ("sessionInfo",
             Json.obj [("serverName", Json.str "example.com"),
                       ("certChain", Json.arr [certJson])])]

/-- Concrete witness value: JSON encoding of `goodSubstrings`. -/
def substringsJson : Json :=
  Json.obj [("sent",
             Json.arr [Json.obj [("start", Json.num 0),
                                 ("bytes", Json.arr [Json.num 71, Json.num 69, Json.num 84]),
                                 ("blinds", Json.arr [Json.num 0, Json.num 0, Json.num 0])]]),
            ("recv", Json.arr [])]

/-- Concrete witness value: JSON encoding of `goodProof`. -/
def proofJson : Json :=
  Json.obj [("session", sessionJson), ("substrings", substringsJson)]

/-- Concrete witness value: an environment naming notary host `n`, port 1. -/
def goodEnv : EnvMap :=
  fun k => if k = "NOTARY_HOST" then some "n"
           else if k = "NOTARY_PORT" then some "1" else none

/-- Concrete witness value: a world on which the whole pipeline succeeds. -/
def goodWorld : World :=
  ⟨goodEnv, goodNet,
   fun p => if p = proofFilePath then Except.ok proofJson
            else Except.error FileError.unreadable⟩

/-- Concrete witness value: the verified output of the successful run. -/
def goodOutput : Output := ⟨"example.com", 1000, [71, 69, 84], [88, 88]⟩

/-- Concrete witness value: a world whose notary is unreachable (every
network request fails with a timeout). -/
def failWorld : World :=
  ⟨goodEnv, fun _ => Except.error TransportError.timeout,
   fun _ => Except.error FileError.unreadable⟩

/-- Concrete witness value: a world where key resolution succeeds but the
stored artifact is not a valid serialized proof. -/
def malformedWorld : World :=
  ⟨goodEnv, goodNet, fun _ => Except.ok (Json.str "x")⟩

/-- Concrete witness value: an `/info` body whose `publicKey` field is
present but not PEM. -/
def badPemInfoJson : Json :=
  Json.obj [("version", Json.str "0.1"), ("publicKey", Json.str "nope"),
            ("gitCommitHash", Json.str "abc"), ("gitCommitTimestamp", Json.str "t")]

/-- Concrete witness value: a network answering with `badPemInfoJson`. -/
def badPemNet : Network :=
  fun u => if u = infoUrl "n" 1 then Except.ok badPemInfoJson
           else Except.error TransportError.unreachable

/-- Concrete witness value: a header committing to the single sent byte 255,
which no UTF-8 sequence allows. -/
def badHeader : SessionHeader := ⟨1000, 5, [255], [104, 105]⟩

/-- Concrete witness value: a notary signature valid for `badHeader`. -/
def badSig : SessionSignature := ⟨sigDigest goodKey.id (serializeHeader badHeader)⟩

/-- Concrete witness value: JSON encoding of the proof over `badHeader`,
disclosing the single non-UTF-8 sent byte. -/
def badProofJson : Json :=
  Json.obj [("session",
             Json.obj [("header",
                        Json.obj [("time", Json.num 1000), ("nonce", Json.num 5),
                                  ("commitSent", Json.arr [Json.num 255]),
                                  ("commitRecv", Json.arr [Json.num 104, Json.num 105])]),
                       ("signature", Json.num badSig.val),
                       ("sessionInfo",
                        Json.obj [("serverName", Json.str "example.com"),
                                  ("certChain", Json.arr [certJson])])]),
            ("substrings",
             Json.obj [("sent",
                        Json.arr [Json.obj [("start", Json.num 0),
                                            ("bytes", Json.arr [Json.num 255]),
                                            ("blinds", Json.arr [Json.num 0])]]),
                       ("recv", Json.arr [])])]

/-- Concrete witness value: a world where every cryptographic step succeeds
but the disclosed sent transcript is not valid UTF-8. -/
def badUtf8World : World :=
  ⟨goodEnv, goodNet,
   fun p => if p = proofFilePath then Except.ok badProofJson
            else Except.error FileError.unreadable⟩

/-- Concrete counterexample value: `goodEnv` extended with a variable asking
for a different proof artifact path. -/
def cfgEnvA : EnvMap :=
  fun k => if k = "PROOF_FILE_PATH" then some "a.json" else goodEnv k

/-- Concrete counterexample value: `goodEnv` extended with yet another
requested proof artifact path. -/
def cfgEnvB : EnvMap :=
  fun k => if k = "PROOF_FILE_PATH" then some "b.json" else goodEnv k

/-- Concrete counterexample value: the successful world, asked via the
environment to use artifact path `a.json`. -/
def cfgWorldA : World := ⟨cfgEnvA, goodNet, goodWorld.files⟩

/-- Concrete counterexample value: the successful world, asked via the
environment to use artifact path `b.json`. -/
def cfgWorldB : World := ⟨cfgEnvB, goodNet, goodWorld.files⟩

/-- Concrete witness value: a tiny session header for the reconstruction
claim, committing to one sent byte and no received bytes. -/
def witHeader : SessionHeader := ⟨0, 0, [71], []⟩

/-- Concrete witness value: a substrings proof disclosing the single sent
byte. -/
def witSubstrings : SubstringsProof := ⟨[⟨0, [71], [0]⟩], []⟩

/-- Concrete witness value: the sent transcript returned on `witHeader`. -/
def witSent : RedactedTranscript := ⟨1, [⟨0, [71], [0]⟩], 0⟩

/-- Concrete witness value: the received transcript returned on `witHeader`. -/
def witRecv : RedactedTranscript := ⟨0, [], 0⟩

/-- Exhaustive characterization of a pipeline run: exactly one of the nine
stop points is reached, and the observable effects at each are as listed. -/
theorem runMainCore_cases (hp : String × Nat) (net : Network)
    (files : String → Except FileError Json) :
    (∃ e, (notary_pubkey net hp.1 hp.2).1 = ResolveOutcome.err e ∧
      runMainCore hp net files =
        ⟨stepOrder.take 1, [], [],
         RunResult.panicked (VError.keyResolutionFailed e)⟩) ∨
    ((notary_pubkey net hp.1 hp.2).1 = ResolveOutcome.panicked ∧
      runMainCore hp net files =
        ⟨stepOrder.take 1, [], [], RunResult.panicked VError.keyResolutionPanic⟩) ∨
    (∃ k, (notary_pubkey net hp.1 hp.2).1 = ResolveOutcome.ok k ∧
      files proofFilePath = Except.error FileError.unreadable ∧
      runMainCore hp net files =
        ⟨stepOrder.take 2, [proofFilePath], [],
         RunResult.panicked VError.proofFileUnreadable⟩) ∨
    (∃ k j, (notary_pubkey net hp.1 hp.2).1 = ResolveOutcome.ok k ∧
      files proofFilePath = Except.ok j ∧ decodeTlsProof j = none ∧
      runMainCore hp net files =
        ⟨stepOrder.take 3, [proofFilePath], [],
         RunResult.panicked VError.malformedProof⟩) ∨
    (∃ k j proof, (notary_pubkey net hp.1 hp.2).1 = ResolveOutcome.ok k ∧
      files proofFilePath = Except.ok j ∧ decodeTlsProof j = some proof ∧
      verify_with_default_cert_verifier proof.session k =
        Except.error SessionError.invalidSignature ∧
      runMainCore hp net files =
        ⟨stepOrder.take 4, [proofFilePath], [],
         RunResult.panicked (VError.sessionVerification SessionError.invalidSignature)⟩) ∨
    (∃ k j proof e, (notary_pubkey net hp.1 hp.2).1 = ResolveOutcome.ok k ∧
      files proofFilePath = Except.ok j ∧ decodeTlsProof j = some proof ∧
      verify_with_default_cert_verifier proof.session k = Except.error e ∧
      (e = SessionError.invalidCertificateChain ∨ e = SessionError.hostnameMismatch) ∧
      runMainCore hp net files =
        ⟨stepOrder.take 5, [proofFilePath], [],
         RunResult.panicked (VError.sessionVerification e)⟩) ∨
    (∃ k j proof e, (notary_pubkey net hp.1 hp.2).1 = ResolveOutcome.ok k ∧
      files proofFilePath = Except.ok j ∧ decodeTlsProof j = some proof ∧
      verify_with_default_cert_verifier proof.session k = Except.ok () ∧
      proof.substrings.verify proof.session.header = Except.error e ∧
      runMainCore hp net files =
        ⟨stepOrder.take 7, [proofFilePath], [],
         RunResult.panicked (VError.substringsVerification e)⟩) ∨
    (∃ k j proof sent recv, (notary_pubkey net hp.1 hp.2).1 = ResolveOutcome.ok k ∧
      files proofFilePath = Except.ok j ∧ decodeTlsProof j = some proof ∧
      verify_with_default_cert_verifier proof.session k = Except.ok () ∧
      proof.substrings.verify proof.session.header = Except.ok (sent, recv) ∧
      (utf8Valid (sent.set_redacted sentinelByte).data &&
        utf8Valid (recv.set_redacted sentinelByte).data) = false ∧
      runMainCore hp net files =
        ⟨stepOrder.take 9, [proofFilePath], [],
         RunResult.panicked VError.nonUtf8Output⟩) ∨
    (∃ k j proof sent recv, (notary_pubkey net hp.1 hp.2).1 = ResolveOutcome.ok k ∧
      files proofFilePath = Except.ok j ∧ decodeTlsProof j = some proof ∧
      verify_with_default_cert_verifier proof.session k = Except.ok () ∧
      proof.substrings.verify proof.session.header = Except.ok (sent, recv) ∧
      (utf8Valid (sent.set_redacted sentinelByte).data &&
        utf8Valid (recv.set_redacted sentinelByte).data) = true ∧
      runMainCore hp net files =
        ⟨stepOrder, [proofFilePath], [],
         RunResult.success
           { server_name := proof.session.session_info.server_name,
             time := unixEpochSeconds + (proof.session.header.time : Int),
             sentData := (sent.set_redacted sentinelByte).data,
             recvData := (recv.set_redacted sentinelByte).data }⟩) := by
  unfold runMainCore
  cases h1 : (notary_pubkey net hp.1 hp.2).1 with
  | err e => exact Or.inl ⟨e, rfl, rfl⟩
  | panicked => exact Or.inr (Or.inl ⟨rfl, rfl⟩)
  | ok k =>
    dsimp only
    cases h2 : files proofFilePath with
    | error fe =>
      cases fe
      exact Or.inr (Or.inr (Or.inl ⟨k, rfl, rfl, rfl⟩))
    | ok j =>
      dsimp only
      cases h3 : decodeTlsProof j with
      | none =>
        exact Or.inr (Or.inr (Or.inr (Or.inl ⟨k, j, rfl, rfl, h3, rfl⟩)))
      | some proof =>
        dsimp only
        cases h4 : verify_with_default_cert_verifier proof.session k with
        | error e =>
          cases e with
          | invalidSignature =>
            exact Or.inr (Or.inr (Or.inr (Or.inr (Or.inl
              ⟨k, j, proof, rfl, rfl, h3, h4, rfl⟩))))
          | invalidCertificateChain =>
            exact Or.inr (Or.inr (Or.inr (Or.inr (Or.inr (Or.inl
              ⟨k, j, proof, _, rfl, rfl, h3, h4, Or.inl rfl, rfl⟩)))))
          | hostnameMismatch =>
            exact Or.inr (Or.inr (Or.inr (Or.inr (Or.inr (Or.inl
              ⟨k, j, proof, _, rfl, rfl, h3, h4, Or.inr rfl, rfl⟩)))))
        | ok u =>
          cases u
          dsimp only
          cases h5 : proof.substrings.verify proof.session.header with
          | error e =>
            exact Or.inr (Or.inr (Or.inr (Or.inr (Or.inr (Or.inr (Or.inl
              ⟨k, j, proof, e, rfl, rfl, h3, h4, h5, rfl⟩))))))
          | ok pr =>
            cases pr with
            | mk sent recv =>
              dsimp only
              cases h6 : utf8Valid (sent.set_redacted sentinelByte).data &&
                  utf8Valid (recv.set_redacted sentinelByte).data with
              | false =>
                refine Or.inr (Or.inr (Or.inr (Or.inr (Or.inr (Or.inr (Or.inr (Or.inl
                  ⟨k, j, proof, sent, recv, rfl, rfl, h3, h4, h5, h6, ?_⟩)))))))
                simp [h6]
              | true =>
                refine Or.inr (Or.inr (Or.inr (Or.inr (Or.inr (Or.inr (Or.inr (Or.inr
                  ⟨k, j, proof, sent, recv, rfl, rfl, h3, h4, h5, h6, ?_⟩)))))))
                simp [h6]

/-- Helper: characterization of a successful range lookup during
reconstruction — the byte comes from a range of the list that covers the
position. -/
theorem discloseAt_eq_some (rs : List RangeOpening) (pos b : Nat)
    (h : discloseAt rs pos = some b) :
    ∃ r ∈ rs, r.start ≤ pos ∧ pos < r.stop ∧ b = r.bytes.getD (pos - r.start) 0 := by
  induction rs with
  | nil => simp [discloseAt] at h
  | cons r rest ih =>
    by_cases hc : r.start ≤ pos ∧ pos < r.stop
    · rw [discloseAt, if_pos hc] at h
      exact ⟨r, by simp, hc.1, hc.2, (Option.some_inj.mp h).symm⟩
    · rw [discloseAt, if_neg hc] at h
      obtain ⟨r2, hr2, h1, h2, h3⟩ := ih h
      exact ⟨r2, by simp [hr2], h1, h2, h3⟩

/-- Helper: the materialized transcript byte at an in-bounds position is
`byteAt`. -/
theorem data_getD (t : RedactedTranscript) (pos : Nat) (hpos : pos < t.total) :
    t.data.getD pos 0 = t.byteAt pos := by
  unfold RedactedTranscript.data
  rw [List.getD_eq_getElem?_getD, List.getElem?_map, List.getElem?_range hpos]
  rfl

/-- Helper: inversion of a successful substrings verification — the returned
transcripts carry the committed total lengths, the validated ranges of the
proof, and the default fill byte 0. -/
theorem substrings_verify_ok (p : SubstringsProof) (h : SessionHeader)
    (sent recv : RedactedTranscript)
    (hv : p.verify h = Except.ok (sent, recv)) :
    sent = ⟨h.sentLen, p.sentOpenings, 0⟩ ∧ recv = ⟨h.recvLen, p.recvOpenings, 0⟩ := by
  unfold SubstringsProof.verify at hv
  cases hd1 : verifyDirection h.commitSent p.sentOpenings with
  | error e => rw [hd1] at hv; cases hv
  | ok u =>
    cases u
    rw [hd1] at hv
    cases hd2 : verifyDirection h.commitRecv p.recvOpenings with
    | error e => rw [hd2] at hv; cases hv
    | ok u2 =>
      cases u2
      rw [hd2] at hv
      dsimp only at hv
      injection hv with hv2
      injection hv2 with hA hB
      exact ⟨hA.symm, hB.symm⟩

/-- Helper: every byte shown by a redacted transcript is either a disclosed
byte of a covering range or the fill byte. -/
theorem byteAt_spec (t : RedactedTranscript) (pos : Nat) :
    (∃ r ∈ t.ranges, r.start ≤ pos ∧ pos < r.stop ∧
      t.byteAt pos = r.bytes.getD (pos - r.start) 0) ∨
    t.byteAt pos = t.fill := by
  unfold RedactedTranscript.byteAt
  cases hda : discloseAt t.ranges pos with
  | some b =>
    obtain ⟨r, hrm, h1, h2, h3⟩ := discloseAt_eq_some _ _ _ hda
    exact Or.inl ⟨r, hrm, h1, h2, h3⟩
  | none => exact Or.inr rfl

/-- C2: for every proof whose substrings verification succeeds, the redacted
sent and received sequences have exactly the committed lengths, and every
in-range position holds either the disclosed byte of a validated covering
range or exactly the sentinel byte, the ASCII code of X; no position is left
uninitialized (the sequences are total maps over `[0, total_length)`). -/
theorem redaction_reconstruction_complete (p : SubstringsProof)
    (h : SessionHeader) (sent recv : RedactedTranscript)
    (hv : p.verify h = Except.ok (sent, recv)) :
    (sent.set_redacted sentinelByte).data.length = h.sentLen ∧
    (recv.set_redacted sentinelByte).data.length = h.recvLen ∧
    sentinelByte = Char.toNat (Char.ofNat 88) ∧
    (∀ pos, pos < h.sentLen →
      (∃ r ∈ p.sentOpenings, r.start ≤ pos ∧ pos < r.stop ∧
        (sent.set_redacted sentinelByte).data.getD pos 0 =
          r.bytes.getD (pos - r.start) 0) ∨
      (sent.set_redacted sentinelByte).data.getD pos 0 = sentinelByte) ∧
    (∀ pos, pos < h.recvLen →
      (∃ r ∈ p.recvOpenings, r.start ≤ pos ∧ pos < r.stop ∧
        (recv.set_redacted sentinelByte).data.getD pos 0 =
          r.bytes.getD (pos - r.start) 0) ∨
      (recv.set_redacted sentinelByte).data.getD pos 0 = sentinelByte) := by
  obtain ⟨hs, hr⟩ := substrings_verify_ok p h sent recv hv
  subst hs; subst hr
  refine ⟨?_, ?_, by decide, ?_, ?_⟩
  · simp [RedactedTranscript.set_redacted, RedactedTranscript.data]
  · simp [RedactedTranscript.set_redacted, RedactedTranscript.data]
  · intro pos hpos
    rw [data_getD _ pos hpos]
    have hb := byteAt_spec
      ((⟨h.sentLen, p.sentOpenings, 0⟩ : RedactedTranscript).set_redacted sentinelByte) pos
    simpa [RedactedTranscript.set_redacted] using hb
  · intro pos hpos
    rw [data_getD _ pos hpos]
    have hb := byteAt_spec
      ((⟨h.recvLen, p.recvOpenings, 0⟩ : RedactedTranscript).set_redacted sentinelByte) pos
    simpa [RedactedTranscript.set_redacted] using hb

/-- Helper: the URL requested by `notary_pubkey` is the `/info` endpoint of
the configured host and port, in every outcome. -/
theorem notary_pubkey_url (net : Network) (host : String) (port : Nat) :
    (notary_pubkey net host port).2 = infoUrl host port := by
  unfold notary_pubkey
  dsimp only
  cases net (infoUrl host port) with
  | error e => rfl
  | ok body =>
    dsimp only
    cases decodeInfoResponse body with
    | none => rfl
    | some info =>
      dsimp only
      cases pemDecodeP256 info.public_key with
      | none => rfl
      | some k => rfl

/-- Helper: outcome of `notary_pubkey` as a function of the network
response. -/
theorem notary_pubkey_outcome (net : Network) (host : String) (port : Nat) :
    (notary_pubkey net host port).1 =
      (match net (infoUrl host port) with
       | Except.error e => ResolveOutcome.err (ResolveError.transport e)
       | Except.ok body =>
           match decodeInfoResponse body with
           | none => ResolveOutcome.err ResolveError.jsonDecode
           | some info =>
               match pemDecodeP256 info.public_key with
               | none => ResolveOutcome.panicked
               | some k => ResolveOutcome.ok k) := by
  unfold notary_pubkey
  dsimp only
  cases net (infoUrl host port) with
  | error e => rfl
  | ok body =>
    dsimp only
    cases decodeInfoResponse body with
    | none => rfl
    | some info =>
      dsimp only
      cases pemDecodeP256 info.public_key with
      | none => rfl
      | some k => rfl

/-- Helper: a decoded `/info` response pins all four string fields of the
JSON body. -/
theorem decodeInfoResponse_fields (j : Json) (info : InfoResponse)
    (h : decodeInfoResponse j = some info) :
    j.getStr? "version" = some info.version ∧
    j.getStr? "publicKey" = some info.public_key ∧
    j.getStr? "gitCommitHash" = some info.git_commit_hash ∧
    j.getStr? "gitCommitTimestamp" = some info.git_commit_timestamp := by
  unfold decodeInfoResponse at h
  cases h1 : j.getStr? "version" with
  | none => rw [h1] at h; cases h
  | some v =>
    rw [h1] at h
    cases h2 : j.getStr? "publicKey" with
    | none => rw [h2] at h; cases h
    | some pk =>
      rw [h2] at h
      cases h3 : j.getStr? "gitCommitHash" with
      | none => rw [h3] at h; cases h
      | some gh =>
        rw [h3] at h
        cases h4 : j.getStr? "gitCommitTimestamp" with
        | none => rw [h4] at h; cases h
        | some gt =>
          rw [h4] at h
          dsimp only at h
          injection h with h5
          subst h5
          exact ⟨rfl, rfl, rfl, rfl⟩

/-- Helper: no run of the pipeline performs a file write. -/
theorem runMain_writes_nil (w : World) : (runMain w).writes = [] := by
  have hrm : runMain w = runMainCore (read_env_vars w.env) w.net w.files := rfl
  rcases runMainCore_cases (read_env_vars w.env) w.net w.files with
    ⟨e, _, he⟩ | ⟨_, he⟩ | ⟨k, _, _, he⟩ | ⟨k, j, _, _, _, he⟩
    | ⟨k, j, proof, _, _, _, _, he⟩ | ⟨k, j, proof, e, _, _, _, _, _, he⟩
    | ⟨k, j, proof, e, _, _, _, _, _, he⟩
    | ⟨k, j, proof, sent, recv, _, _, _, _, _, _, he⟩
    | ⟨k, j, proof, sent, recv, _, _, _, _, _, _, he⟩ <;>
    rw [hrm, he]

/-- Helper: the only file path a run ever reads is the fixed artifact
path. -/
theorem runMain_reads_fixed (w : World) :
    (runMain w).reads.all (fun p => p = proofFilePath) = true := by
  have hrm : runMain w = runMainCore (read_env_vars w.env) w.net w.files := rfl
  rcases runMainCore_cases (read_env_vars w.env) w.net w.files with
    ⟨e, _, he⟩ | ⟨_, he⟩ | ⟨k, _, _, he⟩ | ⟨k, j, _, _, _, he⟩
    | ⟨k, j, proof, _, _, _, _, he⟩ | ⟨k, j, proof, e, _, _, _, _, _, he⟩
    | ⟨k, j, proof, e, _, _, _, _, _, he⟩
    | ⟨k, j, proof, sent, recv, _, _, _, _, _, _, he⟩
    | ⟨k, j, proof, sent, recv, _, _, _, _, _, _, he⟩ <;>
    simp only [hrm, he] <;> decide

/-- C1: the verification pipeline runs in a fixed, short-circuiting order —
key resolution, then artifact reading and deserialization, then signature
verification followed by identity verification, then the attested-time
read, then commitment opening, then transcript redaction, then output —
every trace is an initial segment of that order, no step repeats (so no
step is retried), a panic carries the error of the last executed step, and
the header signature is verified strictly before the header time or the
server name is read. -/
theorem pipeline_fixed_order_short_circuit (w : World) :
    (∃ k, (runMain w).trace = stepOrder.take k) ∧
    (runMain w).trace.Nodup ∧
    (∀ e, (runMain w).result = RunResult.panicked e →
      (runMain w).trace.getLast? = some (stepOfError e)) ∧
    (VStep.readHeaderTime ∈ (runMain w).trace →
      (runMain w).trace.indexOf VStep.verifySessionSignature <
        (runMain w).trace.indexOf VStep.readHeaderTime) ∧
    (VStep.readServerName ∈ (runMain w).trace →
      (runMain w).trace.indexOf VStep.verifySessionSignature <
        (runMain w).trace.indexOf VStep.readServerName) := by
  have hrm : runMain w = runMainCore (read_env_vars w.env) w.net w.files := rfl
  rcases runMainCore_cases (read_env_vars w.env) w.net w.files with
    ⟨e, _, he⟩ | ⟨_, he⟩ | ⟨k, _, _, he⟩ | ⟨k, j, _, _, _, he⟩
    | ⟨k, j, proof, _, _, _, _, he⟩ | ⟨k, j, proof, e, _, _, _, _, hdis, he⟩
    | ⟨k, j, proof, e, _, _, _, _, _, he⟩
    | ⟨k, j, proof, sent, recv, _, _, _, _, _, _, he⟩
    | ⟨k, j, proof, sent, recv, _, _, _, _, _, _, he⟩
  · have ht : (runMain w).trace = stepOrder.take 1 := by rw [hrm, he]
    have hres : (runMain w).result =
        RunResult.panicked (VError.keyResolutionFailed e) := by rw [hrm, he]
    refine ⟨⟨1, ht⟩, by rw [ht]; decide, ?_, by rw [ht]; decide, by rw [ht]; decide⟩
    intro e1 he1
    rw [hres] at he1
    injection he1 with h
    subst h
    rw [ht]
    rfl
  · have ht : (runMain w).trace = stepOrder.take 1 := by rw [hrm, he]
    have hres : (runMain w).result =
        RunResult.panicked VError.keyResolutionPanic := by rw [hrm, he]
    refine ⟨⟨1, ht⟩, by rw [ht]; decide, ?_, by rw [ht]; decide, by rw [ht]; decide⟩
    intro e1 he1
    rw [hres] at he1
    injection he1 with h
    subst h
    rw [ht]
    rfl
  · have ht : (runMain w).trace = stepOrder.take 2 := by rw [hrm, he]
    have hres : (runMain w).result =
        RunResult.panicked VError.proofFileUnreadable := by rw [hrm, he]
    refine ⟨⟨2, ht⟩, by rw [ht]; decide, ?_, by rw [ht]; decide, by rw [ht]; decide⟩
    intro e1 he1
    rw [hres] at he1
    injection he1 with h
    subst h
    rw [ht]
    rfl
  · have ht : (runMain w).trace = stepOrder.take 3 := by rw [hrm, he]
    have hres : (runMain w).result =
        RunResult.panicked VError.malformedProof := by rw [hrm, he]
    refine ⟨⟨3, ht⟩, by rw [ht]; decide, ?_, by rw [ht]; decide, by rw [ht]; decide⟩
    intro e1 he1
    rw [hres] at he1
    injection he1 with h
    subst h
    rw [ht]
    rfl
  · have ht : (runMain w).trace = stepOrder.take 4 := by rw [hrm, he]
    have hres : (runMain w).result =
        RunResult.panicked (VError.sessionVerification SessionError.invalidSignature) := by
      rw [hrm, he]
    refine ⟨⟨4, ht⟩, by rw [ht]; decide, ?_, by rw [ht]; decide, by rw [ht]; decide⟩
    intro e1 he1
    rw [hres] at he1
    injection he1 with h
    subst h
    rw [ht]
    rfl
  · have ht : (runMain w).trace = stepOrder.take 5 := by rw [hrm, he]
    have hres : (runMain w).result =
        RunResult.panicked (VError.sessionVerification e) := by rw [hrm, he]
    refine ⟨⟨5, ht⟩, by rw [ht]; decide, ?_, by rw [ht]; decide, by rw [ht]; decide⟩
    intro e1 he1
    rw [hres] at he1
    injection he1 with h
    subst h
    rcases hdis with rfl | rfl
    · rw [ht]; rfl
    · rw [ht]; rfl
  · have ht : (runMain w).trace = stepOrder.take 7 := by rw [hrm, he]
    have hres : (runMain w).result =
        RunResult.panicked (VError.substringsVerification e) := by rw [hrm, he]
    refine ⟨⟨7, ht⟩, by rw [ht]; decide, ?_, by rw [ht]; decide, by rw [ht]; decide⟩
    intro e1 he1
    rw [hres] at he1
    injection he1 with h
    subst h
    rw [ht]
    rfl
  · have ht : (runMain w).trace = stepOrder.take 9 := by rw [hrm, he]
    have hres : (runMain w).result =
        RunResult.panicked VError.nonUtf8Output := by rw [hrm, he]
    refine ⟨⟨9, ht⟩, by rw [ht]; decide, ?_, by rw [ht]; decide, by rw [ht]; decide⟩
    intro e1 he1
    rw [hres] at he1
    injection he1 with h
    subst h
    rw [ht]
    rfl
  · have ht : (runMain w).trace = stepOrder := by rw [hrm, he]
    have hres : ∃ o, (runMain w).result = RunResult.success o := ⟨_, by rw [hrm, he]⟩
    obtain ⟨o, ho⟩ := hres
    refine ⟨⟨10, by rw [ht]; rfl⟩, by rw [ht]; decide, ?_, by rw [ht]; decide,
      by rw [ht]; decide⟩
    intro e1 he1
    rw [ho] at he1
    exact absurd he1 (by simp)

/-- Witness for C1: the pipeline-order theorem applied to the world whose
notary times out — the run stops at key resolution and the panic carries
that step. -/
theorem pipeline_fixed_order_short_circuit_witness :
    (runMain failWorld).result =
      RunResult.panicked
        (VError.keyResolutionFailed (ResolveError.transport TransportError.timeout)) ∧
    (runMain failWorld).trace.getLast? =
      some (stepOfError
        (VError.keyResolutionFailed (ResolveError.transport TransportError.timeout))) :=
  ⟨by decide,
   (pipeline_fixed_order_short_circuit failWorld).2.2.1 _ (by decide)⟩

/-- C4: verification is deterministic and idempotent — a run writes no
persistent state, so running the verifier again on the world left behind by
a first run produces the identical outcome, in particular the same verified
server name, attested timestamp and redacted transcripts. -/
theorem verification_idempotent (w : World) :
    runMain (applyWrites w (runMain w).writes) = runMain w := by
  rw [runMain_writes_nil w]
  rfl

/-- C6: if the networked key-resolution call fails (timeout or unreachable
host), the run aborts immediately with the distinct key-resolution error:
the trace is exactly the single resolution step, so nothing is retried and
no later step runs. -/
theorem key_resolution_failure_aborts (w : World) (e : TransportError)
    (he : w.net (infoUrl (read_env_vars w.env).1 (read_env_vars w.env).2) =
      Except.error e) :
    (runMain w).result =
      RunResult.panicked (VError.keyResolutionFailed (ResolveError.transport e)) ∧
    (runMain w).trace = [VStep.resolveKey] := by
  have hk : (notary_pubkey w.net (read_env_vars w.env).1 (read_env_vars w.env).2).1 =
      ResolveOutcome.err (ResolveError.transport e) := by
    rw [notary_pubkey_outcome, he]
  have hrm : runMain w = runMainCore (read_env_vars w.env) w.net w.files := rfl
  rw [hrm]
  unfold runMainCore
  rw [hk]
  exact ⟨rfl, rfl⟩

/-- Witness for C6: the key-resolution-failure theorem applied to the world
whose network always times out. -/
theorem key_resolution_failure_aborts_witness :
    failWorld.net (infoUrl (read_env_vars failWorld.env).1
      (read_env_vars failWorld.env).2) = Except.error TransportError.timeout ∧
    (runMain failWorld).result =
      RunResult.panicked
        (VError.keyResolutionFailed (ResolveError.transport TransportError.timeout)) ∧
    (runMain failWorld).trace = [VStep.resolveKey] :=
  ⟨rfl, key_resolution_failure_aborts failWorld TransportError.timeout rfl⟩

/-- Witness for C2: the reconstruction theorem applied to the one-byte
disclosed proof. -/
theorem redaction_reconstruction_complete_witness :
    witSubstrings.verify witHeader = Except.ok (witSent, witRecv) ∧
    ((witSent.set_redacted sentinelByte).data.length = witHeader.sentLen ∧
     (witRecv.set_redacted sentinelByte).data.length = witHeader.recvLen ∧
     sentinelByte = Char.toNat (Char.ofNat 88) ∧
     (∀ pos, pos < witHeader.sentLen →
       (∃ r ∈ witSubstrings.sentOpenings, r.start ≤ pos ∧ pos < r.stop ∧
         (witSent.set_redacted sentinelByte).data.getD pos 0 =
           r.bytes.getD (pos - r.start) 0) ∨
       (witSent.set_redacted sentinelByte).data.getD pos 0 = sentinelByte) ∧
     (∀ pos, pos < witHeader.recvLen →
       (∃ r ∈ witSubstrings.recvOpenings, r.start ≤ pos ∧ pos < r.stop ∧
         (witRecv.set_redacted sentinelByte).data.getD pos 0 =
           r.bytes.getD (pos - r.start) 0) ∨
       (witRecv.set_redacted sentinelByte).data.getD pos 0 = sentinelByte)) :=
  ⟨rfl, redaction_reconstruction_complete witSubstrings witHeader witSent witRecv rfl⟩

/-- Helper: an `/info` body without a string `publicKey` field fails
deserialization. -/
theorem decodeInfoResponse_publicKey_none (j : Json)
    (h : j.getStr? "publicKey" = none) : decodeInfoResponse j = none := by
  unfold decodeInfoResponse
  rw [h]
  cases h1 : j.getStr? "version" with
  | none => rfl
  | some v => rfl

/-- C3: notary key resolution requests exactly `https://host:port/info`,
accepts only a JSON object carrying the four camelCase string fields
`version`, `publicKey`, `gitCommitHash` and `gitCommitTimestamp`, returns
the elliptic-curve key PEM-decoded from the `publicKey` field, and fails
fatally — an error return or a panic, never a key — when the field is
absent or does not decode as PEM. -/
theorem notary_key_resolution_contract (net : Network) (host : String) (port : Nat) :
    (notary_pubkey net host port).2 =
      "https://" ++ host ++ ":" ++ toString port ++ "/info" ∧
    (∀ j info, net (infoUrl host port) = Except.ok j →
      decodeInfoResponse j = some info →
      (j.getStr? "version" = some info.version ∧
       j.getStr? "publicKey" = some info.public_key ∧
       j.getStr? "gitCommitHash" = some info.git_commit_hash ∧
       j.getStr? "gitCommitTimestamp" = some info.git_commit_timestamp) ∧
      (∀ k, pemDecodeP256 info.public_key = some k →
        (notary_pubkey net host port).1 = ResolveOutcome.ok k) ∧
      (pemDecodeP256 info.public_key = none →
        (notary_pubkey net host port).1 = ResolveOutcome.panicked)) ∧
    (∀ j, net (infoUrl host port) = Except.ok j → j.getStr? "publicKey" = none →
      (notary_pubkey net host port).1 = ResolveOutcome.err ResolveError.jsonDecode) ∧
    (∀ k, (notary_pubkey net host port).1 = ResolveOutcome.ok k →
      ∃ j info, net (infoUrl host port) = Except.ok j ∧
        decodeInfoResponse j = some info ∧ pemDecodeP256 info.public_key = some k) := by
  refine ⟨notary_pubkey_url net host port, ?_, ?_, ?_⟩
  · intro j info hj hi
    refine ⟨decodeInfoResponse_fields j info hi, ?_, ?_⟩
    · intro k hk
      rw [notary_pubkey_outcome, hj]
      dsimp only
      rw [hi]
      dsimp only
      rw [hk]
    · intro hk
      rw [notary_pubkey_outcome, hj]
      dsimp only
      rw [hi]
      dsimp only
      rw [hk]
  · intro j hj hpk
    rw [notary_pubkey_outcome, hj]
    dsimp only
    rw [decodeInfoResponse_publicKey_none j hpk]
  · intro k hk
    rw [notary_pubkey_outcome] at hk
    cases hn : net (infoUrl host port) with
    | error te => rw [hn] at hk; cases hk
    | ok body =>
      rw [hn] at hk
      dsimp only at hk
      cases hd : decodeInfoResponse body with
      | none => rw [hd] at hk; cases hk
      | some info =>
        rw [hd] at hk
        dsimp only at hk
        cases hp : pemDecodeP256 info.public_key with
        | none => rw [hp] at hk; cases hk
        | some k2 =>
          rw [hp] at hk
          dsimp only at hk
          injection hk with h
          exact ⟨body, info, rfl, hd, by rw [hp, h]⟩

/-- Witness for C3: the resolution-contract theorem applied to the network
answering with the well-formed `/info` body. -/
theorem notary_key_resolution_contract_witness :
    (notary_pubkey goodNet "n" 1).2 =
      "https://" ++ "n" ++ ":" ++ toString 1 ++ "/info" ∧
    goodNet (infoUrl "n" 1) = Except.ok infoJson ∧
    decodeInfoResponse infoJson = some ⟨"0.1", goodPem, "abc", "t"⟩ ∧
    pemDecodeP256 goodPem = some goodKey ∧
    (notary_pubkey goodNet "n" 1).1 = ResolveOutcome.ok goodKey :=
  ⟨(notary_key_resolution_contract goodNet "n" 1).1, rfl, by decide, by decide,
   ((notary_key_resolution_contract goodNet "n" 1).2.1 infoJson
      ⟨"0.1", goodPem, "abc", "t"⟩ rfl (by decide)).2.1 goodKey (by decide)⟩

/-- C5: when key resolution has produced a key and the artifact file is
readable but its contents are not a valid serialized `TlsProof`, the run
fails at deserialization with the malformed-proof error, and neither
signature verification, identity verification nor commitment opening is
ever executed. -/
theorem malformed_proof_fails_before_crypto (w : World) (j : Json) (k : PublicKey)
    (hk : (notary_pubkey w.net (read_env_vars w.env).1 (read_env_vars w.env).2).1 =
      ResolveOutcome.ok k)
    (hf : w.files proofFilePath = Except.ok j)
    (hd : decodeTlsProof j = none) :
    (runMain w).result = RunResult.panicked VError.malformedProof ∧
    VStep.verifySessionSignature ∉ (runMain w).trace ∧
    VStep.verifyServerIdentity ∉ (runMain w).trace ∧
    VStep.openCommitments ∉ (runMain w).trace := by
  have hrm : runMain w = runMainCore (read_env_vars w.env) w.net w.files := rfl
  have he : runMain w = ⟨stepOrder.take 3, [proofFilePath], [],
      RunResult.panicked VError.malformedProof⟩ := by
    rw [hrm]
    unfold runMainCore
    rw [hk]
    dsimp only
    rw [hf]
    dsimp only
    rw [hd]
  rw [he]
  exact ⟨rfl, by decide, by decide, by decide⟩

/-- Witness for C5: the malformed-artifact theorem applied to the world
whose stored artifact is the JSON string `x`. -/
theorem malformed_proof_fails_before_crypto_witness :
    (notary_pubkey malformedWorld.net (read_env_vars malformedWorld.env).1
       (read_env_vars malformedWorld.env).2).1 = ResolveOutcome.ok goodKey ∧
    malformedWorld.files proofFilePath = Except.ok (Json.str "x") ∧
    decodeTlsProof (Json.str "x") = none ∧
    ((runMain malformedWorld).result = RunResult.panicked VError.malformedProof ∧
     VStep.verifySessionSignature ∉ (runMain malformedWorld).trace ∧
     VStep.verifyServerIdentity ∉ (runMain malformedWorld).trace ∧
     VStep.openCommitments ∉ (runMain malformedWorld).trace) :=
  ⟨by decide, rfl, rfl,
   malformed_proof_fails_before_crypto malformedWorld (Json.str "x") goodKey
     (by decide) rfl rfl⟩

/-- C7: a successful run exposes exactly the verified server name of the
session metadata, the attested timestamp computed as the Unix epoch plus
the header time in seconds, and the two transcripts produced by substring
verification and sentinel redaction. -/
theorem success_output_contract (w : World) (o : Output)
    (h : (runMain w).result = RunResult.success o) :
    ∃ j proof sent recv,
      w.files proofFilePath = Except.ok j ∧
      decodeTlsProof j = some proof ∧
      proof.substrings.verify proof.session.header = Except.ok (sent, recv) ∧
      o.server_name = proof.session.session_info.server_name ∧
      o.time = unixEpochSeconds + (proof.session.header.time : Int) ∧
      o.sentData = (sent.set_redacted sentinelByte).data ∧
      o.recvData = (recv.set_redacted sentinelByte).data := by
  have hrm : runMain w = runMainCore (read_env_vars w.env) w.net w.files := rfl
  rcases runMainCore_cases (read_env_vars w.env) w.net w.files with
    ⟨e, _, he⟩ | ⟨_, he⟩ | ⟨k, _, _, he⟩ | ⟨k, j, _, _, _, he⟩
    | ⟨k, j, proof, _, _, _, _, he⟩ | ⟨k, j, proof, e, _, _, _, _, _, he⟩
    | ⟨k, j, proof, e, _, _, _, _, _, he⟩
    | ⟨k, j, proof, sent, recv, _, _, _, _, _, _, he⟩
    | ⟨k, j, proof, sent, recv, _, h2, h3, _, h5, _, he⟩
  · rw [hrm, he] at h; exact absurd h (by simp)
  · rw [hrm, he] at h; exact absurd h (by simp)
  · rw [hrm, he] at h; exact absurd h (by simp)
  · rw [hrm, he] at h; exact absurd h (by simp)
  · rw [hrm, he] at h; exact absurd h (by simp)
  · rw [hrm, he] at h; exact absurd h (by simp)
  · rw [hrm, he] at h; exact absurd h (by simp)
  · rw [hrm, he] at h; exact absurd h (by simp)
  · rw [hrm, he] at h
    dsimp only at h
    injection h with ho
    subst ho
    exact ⟨j, proof, sent, recv, h2, h3, h5, rfl, rfl, rfl, rfl⟩

/-- Witness for C7: the output-contract theorem applied to the world on
which the whole pipeline succeeds. -/
theorem success_output_contract_witness :
    (runMain goodWorld).result = RunResult.success goodOutput ∧
    (∃ j proof sent recv,
      goodWorld.files proofFilePath = Except.ok j ∧
      decodeTlsProof j = some proof ∧
      proof.substrings.verify proof.session.header = Except.ok (sent, recv) ∧
      goodOutput.server_name = proof.session.session_info.server_name ∧
      goodOutput.time = unixEpochSeconds + (proof.session.header.time : Int) ∧
      goodOutput.sentData = (sent.set_redacted sentinelByte).data ∧
      goodOutput.recvData = (recv.set_redacted sentinelByte).data) :=
  ⟨by decide, success_output_contract goodWorld goodOutput (by decide)⟩

/-- C8 counterexample: the proof artifact path is not selectable through the
environment-style configuration — two worlds whose configuration requests
the distinct artifact paths `a.json` and `b.json` both make the verifier
read exactly the fixed path `simple_proof.json`. -/
theorem proof_path_not_configurable :
    cfgWorldA.env "PROOF_FILE_PATH" = some "a.json" ∧
    cfgWorldB.env "PROOF_FILE_PATH" = some "b.json" ∧
    (runMain cfgWorldA).reads = ["simple_proof.json"] ∧
    (runMain cfgWorldB).reads = ["simple_proof.json"] ∧
    ("a.json" : String) ≠ "simple_proof.json" ∧
    ("b.json" : String) ≠ "simple_proof.json" :=
  ⟨rfl, rfl, by decide, by decide, by decide, by decide⟩

/-- C8 (amended): the only configuration the verifier consumes is the
notary host and port, read from the environment variables `NOTARY_HOST` and
`NOTARY_PORT` — two worlds agreeing on those two variables and on the
external network and filesystem produce identical runs — while the proof
artifact path is fixed (`simple_proof.json` is the only path ever read) and
the verifier writes no persisted state. -/
theorem config_only_notary_host_port (w1 w2 : World)
    (hh : w1.env "NOTARY_HOST" = w2.env "NOTARY_HOST")
    (hp : w1.env "NOTARY_PORT" = w2.env "NOTARY_PORT")
    (hn : w1.net = w2.net) (hf : w1.files = w2.files) :
    runMain w1 = runMain w2 ∧
    (runMain w1).reads.all (fun p => p = proofFilePath) = true ∧
    (runMain w1).writes = [] := by
  have hev : read_env_vars w1.env = read_env_vars w2.env := by
    unfold read_env_vars
    rw [hh, hp]
  refine ⟨?_, runMain_reads_fixed w1, runMain_writes_nil w1⟩
  unfold runMain
  rw [hev, hn, hf]

/-- Witness for the amended C8: two worlds differing only in a variable the
verifier does not consume produce identical runs. -/
theorem config_only_notary_host_port_witness :
    goodWorld.env "NOTARY_HOST" = cfgWorldA.env "NOTARY_HOST" ∧
    goodWorld.env "NOTARY_PORT" = cfgWorldA.env "NOTARY_PORT" ∧
    runMain goodWorld = runMain cfgWorldA ∧
    (runMain goodWorld).writes = [] :=
  ⟨by decide, by decide,
   (config_only_notary_host_port goodWorld cfgWorldA (by decide) (by decide)
      rfl rfl).1,
   (config_only_notary_host_port goodWorld cfgWorldA (by decide) (by decide)
      rfl rfl).2.2⟩

/-- C9: the error channel of `notary_pubkey` covers exactly HTTP transport
failures and JSON-body deserialization failures; a response whose
`publicKey` field is present but not a valid PEM key never produces an
error value — the function panics instead of returning a resolution error
to the caller. -/
theorem resolve_error_channel (net : Network) (host : String) (port : Nat) :
    (∀ e, (notary_pubkey net host port).1 = ResolveOutcome.err e →
      (∃ te, e = ResolveError.transport te ∧
        net (infoUrl host port) = Except.error te) ∨
      (e = ResolveError.jsonDecode ∧
        ∃ j, net (infoUrl host port) = Except.ok j ∧
          decodeInfoResponse j = none)) ∧
    (∀ j info, net (infoUrl host port) = Except.ok j →
      decodeInfoResponse j = some info →
      pemDecodeP256 info.public_key = none →
      (notary_pubkey net host port).1 = ResolveOutcome.panicked) := by
  constructor
  · intro e he
    rw [notary_pubkey_outcome] at he
    cases hn : net (infoUrl host port) with
    | error te =>
      rw [hn] at he
      dsimp only at he
      injection he with h
      exact Or.inl ⟨te, h.symm, rfl⟩
    | ok body =>
      rw [hn] at he
      dsimp only at he
      cases hd : decodeInfoResponse body with
      | none =>
        rw [hd] at he
        dsimp only at he
        injection he with h
        exact Or.inr ⟨h.symm, body, rfl, hd⟩
      | some info =>
        rw [hd] at he
        dsimp only at he
        cases hp : pemDecodeP256 info.public_key with
        | none => rw [hp] at he; cases he
        | some k => rw [hp] at he; cases he
  · intro j info hj hi hp
    rw [notary_pubkey_outcome, hj]
    dsimp only
    rw [hi]
    dsimp only
    rw [hp]

/-- Witness for C9: the error-channel theorem applied to the network whose
`/info` body carries the non-PEM key `nope`. -/
theorem resolve_error_channel_witness :
    badPemNet (infoUrl "n" 1) = Except.ok badPemInfoJson ∧
    decodeInfoResponse badPemInfoJson = some ⟨"0.1", "nope", "abc", "t"⟩ ∧
    pemDecodeP256 "nope" = none ∧
    (notary_pubkey badPemNet "n" 1).1 = ResolveOutcome.panicked :=
  ⟨rfl, by decide, by decide,
   (resolve_error_channel badPemNet "n" 1).2 badPemInfoJson
     ⟨"0.1", "nope", "abc", "t"⟩ rfl (by decide) (by decide)⟩

/-- C10: once every cryptographic step has succeeded — the run reached
transcript redaction — the only remaining failure mode is the UTF-8 unwrap
in result presentation: the run either succeeds with both redacted
transcripts valid UTF-8, or panics with the non-UTF-8 output error exactly
because one of the redacted transcripts fails UTF-8 validation. -/
theorem success_requires_utf8_transcripts (w : World)
    (h : VStep.redactTranscripts ∈ (runMain w).trace) :
    (∃ o, (runMain w).result = RunResult.success o ∧
      utf8Valid o.sentData = true ∧ utf8Valid o.recvData = true) ∨
    ((runMain w).result = RunResult.panicked VError.nonUtf8Output ∧
      ∃ j proof sent recv,
        w.files proofFilePath = Except.ok j ∧
        decodeTlsProof j = some proof ∧
        proof.substrings.verify proof.session.header = Except.ok (sent, recv) ∧
        (utf8Valid (sent.set_redacted sentinelByte).data &&
          utf8Valid (recv.set_redacted sentinelByte).data) = false) := by
  have hrm : runMain w = runMainCore (read_env_vars w.env) w.net w.files := rfl
  rcases runMainCore_cases (read_env_vars w.env) w.net w.files with
    ⟨e, _, he⟩ | ⟨_, he⟩ | ⟨k, _, _, he⟩ | ⟨k, j, _, _, _, he⟩
    | ⟨k, j, proof, _, _, _, _, he⟩ | ⟨k, j, proof, e, _, _, _, _, _, he⟩
    | ⟨k, j, proof, e, _, _, _, _, _, he⟩
    | ⟨k, j, proof, sent, recv, _, h2, h3, _, h5, h6, he⟩
    | ⟨k, j, proof, sent, recv, _, h2, h3, _, h5, h6, he⟩
  · have ht : (runMain w).trace = stepOrder.take 1 := by rw [hrm, he]
    rw [ht] at h
    exact absurd h (by decide)
  · have ht : (runMain w).trace = stepOrder.take 1 := by rw [hrm, he]
    rw [ht] at h
    exact absurd h (by decide)
  · have ht : (runMain w).trace = stepOrder.take 2 := by rw [hrm, he]
    rw [ht] at h
    exact absurd h (by decide)
  · have ht : (runMain w).trace = stepOrder.take 3 := by rw [hrm, he]
    rw [ht] at h
    exact absurd h (by decide)
  · have ht : (runMain w).trace = stepOrder.take 4 := by rw [hrm, he]
    rw [ht] at h
    exact absurd h (by decide)
  · have ht : (runMain w).trace = stepOrder.take 5 := by rw [hrm, he]
    rw [ht] at h
    exact absurd h (by decide)
  · have ht : (runMain w).trace = stepOrder.take 7 := by rw [hrm, he]
    rw [ht] at h
    exact absurd h (by decide)
  · rw [hrm, he]
    exact Or.inr ⟨rfl, j, proof, sent, recv, h2, h3, h5, h6⟩
  · rw [hrm, he]
    simp only [Bool.and_eq_true] at h6
    exact Or.inl ⟨_, rfl, h6.1, h6.2⟩

/-- Witness for C10: the UTF-8 theorem applied to the world whose proof
verifies but discloses the non-UTF-8 byte 255. -/
theorem success_requires_utf8_transcripts_witness :
    VStep.redactTranscripts ∈ (runMain badUtf8World).trace ∧
    ((∃ o, (runMain badUtf8World).result = RunResult.success o ∧
       utf8Valid o.sentData = true ∧ utf8Valid o.recvData = true) ∨
     ((runMain badUtf8World).result = RunResult.panicked VError.nonUtf8Output ∧
       ∃ j proof sent recv,
         badUtf8World.files proofFilePath = Except.ok j ∧
         decodeTlsProof j = some proof ∧
         proof.substrings.verify proof.session.header = Except.ok (sent, recv) ∧
         (utf8Valid (sent.set_redacted sentinelByte).data &&
           utf8Valid (recv.set_redacted sentinelByte).data) = false)) :=
  ⟨by decide, success_requires_utf8_transcripts badUtf8World (by decide)⟩

end SimpleVerifier
